import Mathlib

/-!
Verification development for the Deep Visualization Toolbox repository.

The definitions below are shallow embeddings of the Python code in
`src/`: pure computations become Lean functions, raised exceptions
become explicit error values, object identity is tracked by explicit
identifiers, and side effects (setting environment variables, importing
modules, starting threads, running GUI event loops) are recorded as
explicit action/event values in the order the code performs them.
-/

/-- Exceptions raised by the modelled code. -/
inductive PyError
| notImplementedError (msg : String)
| valueError (msg : String)
| runtimeError (msg : String)
deriving DecidableEq, Repr

/-- Check of the exception class, ignoring the message. -/
def isNotImplementedError : PyError → Bool
| .notImplementedError _ => true
| _ => false

/-- Truncating conversion from a rational to an integer, modelling the
Python builtin int() applied to a float value: truncation toward zero. -/
def pyInt (q : ℚ) : ℤ := if q < 0 then ⌈q⌉ else ⌊q⌋

/-!
## dltb/base/image.py: class Size

`Size` is a namedtuple with fields `width` and `height`.  Its `__new__`
accepts any `Sizelike` value (a `Size`, an int, a float, a string with a
`,` or `x` separator, or a pair) and normalizes it; `__eq__` converts
the other operand with `Size` before comparing the tuples.
-/

/-- The namedtuple `Size(width, height)` from dltb/base/image.py. -/
structure Size where
  width : ℤ
  height : ℤ
deriving DecidableEq, Repr

/-- The `Sizelike` union from dltb/base/image.py: a value acceptable to
the `Size` constructor.  `pair` stands for a two-element tuple or list. -/
inductive Sizelike
| size (s : Size)
| int (n : ℤ)
| float (q : ℚ)
| str (s : String)
| pair (w h : ℤ)
deriving DecidableEq, Repr

/-- One step of accumulating decimal digits, for the Python builtin
int() applied to a string. -/
def parseDigitsAux : ℕ → List Char → Option ℕ
| acc, [] => some acc
| acc, c :: cs =>
    if c.isDigit then parseDigitsAux (10 * acc + (c.toNat - 48)) cs
    else none

/-- The Python builtin int() applied to a string (given as its character
list): parse an optionally signed, non-empty decimal numeral; any other
string raises ValueError, modelled as `none`. -/
def pyIntOfChars : List Char → Option ℤ
| [] => none
| '-' :: cs =>
    if cs = [] then none
    else (parseDigitsAux 0 cs).map (fun n => -(n : ℤ))
| '+' :: cs =>
    if cs = [] then none
    else (parseDigitsAux 0 cs).map (fun n => (n : ℤ))
| cs => (parseDigitsAux 0 cs).map (fun n => (n : ℤ))

/-- Python str.split with a one-character separator, acting on the
character list of the string. -/
def splitOnChar (sep : Char) : List Char → List (List Char)
| [] => [[]]
| c :: rest =>
    let r := splitOnChar sep rest
    if c == sep then [] :: r
    else
      match r with
      | [] => [[c]]
      | g :: gs => (c :: g) :: gs

/-- Parse every part produced by the split; the whole parse fails
(Python: int() raises) as soon as one part fails. -/
def parseIntList : List (List Char) → Option (List ℤ)
| [] => some []
| x :: xs =>
    match pyIntOfChars x, parseIntList xs with
    | some i, some rest => some (i :: rest)
    | _, _ => none

/-- `Size.__new__` on a single `Sizelike` argument (dltb/base/image.py,
lines 78-98): a `Size` is returned unchanged; a string is split at its
first `,` or `x` character into two integers, or parsed as a single
integer when it has no separator; a float is truncated by int(); an int
yields a square size; a pair is unpacked into the two fields.  A failed
parse or a split with a number of parts other than two raises, modelled
as `none`. -/
def sizeNew : Sizelike → Option Size
| .size s => some s
| .pair w h => some ⟨w, h⟩
| .int n => some ⟨n, n⟩
| .float q => some ⟨pyInt q, pyInt q⟩
| .str s =>
    match s.toList.find? (fun c => c == ',' || c == 'x') with
    | some sep =>
        match parseIntList (splitOnChar sep s.toList) with
        | some (w :: h :: []) => some (⟨w, h⟩ : Size)
        | _ => none
    | none => (pyIntOfChars s.toList).map (fun n => (⟨n, n⟩ : Size))

/-- `Size.__eq__` (dltb/base/image.py, lines 100-103): convert the other
operand with `Size` and compare the tuples; a failing conversion
propagates, modelled as `none`. -/
def sizeEq (s : Size) (other : Sizelike) : Option Bool :=
  (sizeNew other).map (fun t => decide (s = t))

/-!
## dltb/base/image.py: abstract stubs (ImageReader.read, ImageWriter.write,
ImageOperator.__call__)

Each base implementation unconditionally raises NotImplementedError with
a message naming the concrete class; when a subclass does not override
the method, this base body is what a call executes.  The receiver state
(of arbitrary type) is returned alongside to record that it is not
touched.
-/

/-- Outcome of calling an unimplemented stub method: the receiver in its
(unchanged) state together with the exception that was raised. -/
structure StubOutcome (α : Type) where
  receiver : α
  raised : PyError

/-- `ImageReader.read` base implementation (dltb/base/image.py, lines
473-478). -/
def imageReaderRead {α : Type} (className : String) (self : α)
    (_filename : String) : StubOutcome α :=
  ⟨self, .notImplementedError (className ++ " claims to be an ImageReader, but does not implement the read method.")⟩

/-- `ImageWriter.write` base implementation (dltb/base/image.py, lines
488-493). -/
def imageWriterWrite {α β : Type} (className : String) (self : α)
    (_filename : String) (_image : β) : StubOutcome α :=
  ⟨self, .notImplementedError (className ++ " claims to be an ImageWriter, but does not implement the write method.")⟩

/-- `ImageOperator.__call__` base implementation (dltb/base/image.py,
lines 804-809). -/
def imageOperatorCall {α β : Type} (className : String) (self : α)
    (_image : β) : StubOutcome α :=
  ⟨self, .notImplementedError (className ++ " claims to be an ImageOperator, but does not implement the `__call__` method.")⟩

/-!
## dltb/base/image.py: ImageResizer.resize / ImageResizer.scale

The two methods delegate to each other.  `resize` raises when the
subclass does not override `scale` (Python: `type(self).scale is
ImageResizer.scale`), otherwise it computes scale factors from the first
two shape dimensions and calls `scale`; symmetrically for `scale`.  The
delegated call is recorded as a `ResizerCall` value.  Image shapes are
lists of dimensions; indexing `shape[0]`/`shape[1]` is modelled with
`getD` and theorems are only stated for shapes with at least two
dimensions.  Python float division is modelled by exact division on ℚ;
theorems about `resize` assume nonzero image dimensions, where Python
would not raise ZeroDivisionError.
-/

/-- The call an ImageResizer base method performs (or the exception it
raises). -/
inductive ResizerCall
| raiseNotImplemented
| callScale (fy fx : ℚ)
| callResize (size : Size)
deriving DecidableEq, Repr

/-- `ImageResizer.resize` body (dltb/base/image.py, lines 659-676).
`scaleOverridden` records whether the dynamic class overrides `scale`;
`size` is indexable, size.1 = size[0], size.2 = size[1]. -/
def resizeBody (scaleOverridden : Bool) (shape : List ℕ) (size : ℤ × ℤ) :
    ResizerCall :=
  if !scaleOverridden then .raiseNotImplemented
  else
    .callScale ((size.1 : ℚ) / ((shape.getD 0 0 : ℕ) : ℚ))
      ((size.2 : ℚ) / ((shape.getD 1 0 : ℕ) : ℚ))

/-- `ImageResizer.scale` body (dltb/base/image.py, lines 678-703).
`resizeOverridden` records whether the dynamic class overrides `resize`;
the factor is either a single float (applied to both axes) or a pair. -/
def scaleBody (resizeOverridden : Bool) (shape : List ℕ)
    (factor : ℚ ⊕ (ℚ × ℚ)) : ResizerCall :=
  if !resizeOverridden then .raiseNotImplemented
  else
    let f : ℚ × ℚ :=
      match factor with
      | .inl q => (q, q)
      | .inr p => p
    .callResize ⟨pyInt (((shape.getD 0 0 : ℕ) : ℚ) * f.1),
                 pyInt (((shape.getD 1 0 : ℕ) : ℚ) * f.2)⟩

/-!
## dltb/base/image.py: ImageAdapter / ImageExtension metaclass mechanism

Classes are identified by natural numbers in creation order, so in a
well-formed class table every direct base of a class has a smaller
index.  Membership in Python's `cls.__mro__` is exactly membership in
the reflexive-transitive closure of the direct-base relation, which
`ancestorsFuel` computes (fuel at least the class index suffices); this
is also what `issubclass` tests.
-/

/-- Unfold the inheritance graph up to the given depth: the class itself
plus the ancestors of its direct bases. -/
def ancestorsFuel (bases : ℕ → List ℕ) : ℕ → ℕ → List ℕ
| 0, i => [i]
| fuel+1, i => i :: (bases i).flatMap (ancestorsFuel bases fuel)

/-- The classes appearing in `cls.__mro__`, as a list (linearization
order is irrelevant to the code, which only tests membership). -/
def pyMro (bases : ℕ → List ℕ) (i : ℕ) : List ℕ :=
  ancestorsFuel bases i i

/-- Python `issubclass(a, b)`: `b` appears in the mro of `a`. -/
def pyIsSubclass (bases : ℕ → List ℕ) (a b : ℕ) : Bool :=
  decide (b ∈ pyMro bases a)

/-- The `ImageAdapter._image_extensions` registry, a dict mapping a base
class to its registered image-extension class; modelled as an
association list whose lookup takes the most recent binding. -/
def lookupExtension (exts : List (ℕ × ℕ)) (base : ℕ) : Option ℕ :=
  (exts.find? (fun p => p.1 == base)).map (fun p => p.2)

/-- The registration performed by `ImageExtension.__init_subclass__`
(dltb/base/image.py, line 438): `_image_extensions[base] = cls`. -/
def registerImageExtension (exts : List (ℕ × ℕ)) (base cls : ℕ) :
    List (ℕ × ℕ) :=
  (base, cls) :: exts

/-- The loop of `ImageAdapter.__init_subclass__` (dltb/base/image.py,
lines 373-382) that rebuilds `cls.__bases__` for one registered pair:
the base itself is replaced by the replacement; otherwise the
replacement is inserted in front of the first direct base that is a
subclass of the base (the `found` flag); all other direct bases are
kept. -/
def rewriteBasesLoop (bases : ℕ → List ℕ) (base repl : ℕ) :
    List ℕ → Bool → List ℕ
| [], _ => []
| c :: cs, found =>
    if c = base then
      repl :: rewriteBasesLoop bases base repl cs true
    else if !found && pyIsSubclass bases c base then
      repl :: c :: rewriteBasesLoop bases base repl cs true
    else
      c :: rewriteBasesLoop bases base repl cs found

/-- One iteration of `ImageAdapter.__init_subclass__` (dltb/base/image.py,
lines 370-385) for the registered pair (base, repl), applied to the
newly created class `cls`: when `base` is in the mro of `cls` and `repl`
is not, `cls.__bases__` is rebuilt by `rewriteBasesLoop`; otherwise it
is left alone. -/
def adapterInitSubclassStep (bases : ℕ → List ℕ) (base repl cls : ℕ) :
    List ℕ :=
  if base ∈ pyMro bases cls ∧ repl ∉ pyMro bases cls then
    rewriteBasesLoop bases base repl (bases cls) false
  else bases cls

/-!
## dltb/base/image.py: ImageDisplay.show and the event loop

The state of an `ImageDisplay` keeps the attributes the method reads;
the method is modelled as the ordered list of effectful actions it
performs, or the exception it raises.  `_event_loop is not None` is the
`event_loop_is_running()` test; `_presentation is not None` is
`presentationActive`.
-/

/-- The attributes of an `ImageDisplay` read by `show` (dltb/base/image.py,
constructor lines 938-961). -/
structure DisplayState where
  opened : Bool
  blocking : Option Bool
  presentationActive : Bool
  presentationIsCurrentThread : Bool
  eventLoopRunning : Bool
  entered : ℕ
deriving DecidableEq, Repr

/-- The effectful actions `ImageDisplay.show` can perform, in order. -/
inductive ShowAction
| openWindow
| showImage (image : ℕ)
| runBlockingLoopInCallingThread (timeout : Option ℚ)
| startNonblockingLoopBackgroundThread
| processEventsOnce
| closeWindow
deriving DecidableEq, Repr

/-- Which actions run or start an event loop (or process its events). -/
def isEventLoopAction : ShowAction → Bool
| .runBlockingLoopInCallingThread _ => true
| .startNonblockingLoopBackgroundThread => true
| .processEventsOnce => true
| _ => false

/-- In Python a bool value is never `None`; the guard
`not self.event_loop_is_running() is None` in `ImageDisplay.show`
(dltb/base/image.py, line 1067) parses as `not (x is None)` with `x` the
Bool returned by `event_loop_is_running()`, hence it is always True. -/
def boolIsNone (_b : Bool) : Bool := false

/-- The effective blocking value computed at the start of
`ImageDisplay.show` (dltb/base/image.py, lines 1042-1045): `None` while
a presentation is running, else the argument if given, else the
`blocking` property. -/
def effectiveBlocking (s : DisplayState) (blockingArg : Option Bool) :
    Option Bool :=
  if s.presentationActive then none
  else
    match blockingArg with
    | none => s.blocking
    | some b => some b

/-- `ImageDisplay.show` (dltb/base/image.py, lines 1009-1082): compute
the effective blocking value and the close flag, open the window if
necessary (raising RuntimeError when a presentation uses a closed
display), show the image, then manage the event loop according to the
blocking value, and finally close if requested.  The window is opened
only when the display is closed and no presentation is active (the
guard inside `open`). -/
def displayShow (s : DisplayState) (image : ℕ)
    (blockingArg closeArg : Option Bool) (timeout : Option ℚ) :
    Except PyError (List ShowAction) :=
  let blocking := effectiveBlocking s blockingArg
  let closeFlag : Bool :=
    match closeArg with
    | none => !s.opened && (blocking == some true)
    | some c => c
  if !s.opened && s.presentationIsCurrentThread then
    .error (.runtimeError "Presentation is trying to use closed ImageDisplay.")
  else
    let openActs : List ShowAction :=
      if !s.opened && !s.presentationActive then [.openWindow] else []
    let loopActs : List ShowAction :=
      match blocking with
      | some true =>
          if !(boolIsNone s.eventLoopRunning) then
            [.runBlockingLoopInCallingThread timeout]
          else []
      | some false =>
          if !s.eventLoopRunning then
            [.startNonblockingLoopBackgroundThread]
          else []
      | none => [.processEventsOnce]
    let closeActs : List ShowAction := if closeFlag then [.closeWindow] else []
    .ok (openActs ++ .showImage image :: (loopActs ++ closeActs))

/-!
## dltb/base/image.py: threads created and coordinated by ImageDisplay

Each operation of `ImageDisplay` that touches `threading.Thread`
objects is modelled as the ordered list of thread operations it
performs.  Three distinct threads occur in the code: the event-loop
thread created by `_run_nonblocking_event_loop`, the presentation
thread created by `present`, and the worker thread running `tool.loop`
created by `run`.
-/

/-- The threads occurring in dltb/base/image.py. -/
inductive ThreadId
| eventLoop
| presentation
| worker
deriving DecidableEq, Repr

/-- Operations on a thread object. -/
inductive ThreadOp
| create (t : ThreadId)
| start (t : ThreadId)
| join (t : ThreadId)
deriving DecidableEq, Repr

/-- The thread an operation targets. -/
def ThreadOp.target : ThreadOp → ThreadId
| .create t => t
| .start t => t
| .join t => t

/-- `ImageDisplay._run_nonblocking_event_loop` (dltb/base/image.py,
lines 1237-1254): create the event-loop thread and start it. -/
def nonblockingEventLoopThreadOps : List ThreadOp :=
  [.create .eventLoop, .start .eventLoop]

/-- `ImageDisplay.present` (dltb/base/image.py, lines 1084-1117): create
the presentation thread and start it (the blocking event loop then runs
in the calling thread, with no further thread creation). -/
def presentThreadOps : List ThreadOp :=
  [.create .presentation, .start .presentation]

/-- `ImageDisplay.close` (dltb/base/image.py, lines 1126-1153): join the
presentation thread when one is running and it is not the current
thread; join the event-loop thread when `_event_loop` holds a Thread
object that is not the current thread. -/
def closeThreadOps (presentationActive presentationIsCurrentThread
    eventLoopIsThread eventLoopIsCurrentThread : Bool) : List ThreadOp :=
  (if presentationActive && !presentationIsCurrentThread then
    [ThreadOp.join .presentation] else []) ++
  (if eventLoopIsThread && !eventLoopIsCurrentThread then
    [ThreadOp.join .eventLoop] else [])

/-- `ImageDisplay.run` (dltb/base/image.py, lines 1266-1288): create a
worker thread running `tool.loop`, start it, and join it after the tool
is stopped. -/
def runToolThreadOps : List ThreadOp :=
  [.create .worker, .start .worker, .join .worker]

/-!
## main.py: framework plug-in selection

The `__main__` block parses `--framework` with argparse `choices`
restricted to keras-tensorflow, keras-theano and torch (any other value
makes argparse exit with an error), then dispatches: the keras branch
sets KERAS_BACKEND before importing network.keras_tensorflow and
constructing a KerasTensorFlowNetwork from the `--model` file (falling
back to the default model file when the value is empty), and the torch
branch constructs a TorchNetwork from hard-coded files.  The performed
effects are recorded in order.
-/

/-- The effects of the framework dispatch in main.py. -/
inductive MainEvent
| setEnv (key value : String)
| importModule (name : String)
| constructKerasTensorFlowNetwork (modelFile : String)
| constructTorchNetwork (netFile paramFile netClass : String)
    (inputShape : ℕ × ℕ)
deriving DecidableEq, Repr

/-- Does an event construct a network? -/
def constructsNetwork : MainEvent → Bool
| .constructKerasTensorFlowNetwork _ => true
| .constructTorchNetwork _ _ _ _ => true
| _ => false

/-- Python str.startswith on character lists. -/
def charsStartWith : List Char → List Char → Bool
| [], _ => true
| _ :: _, [] => false
| p :: ps, c :: cs => p == c && charsStartWith ps cs

/-- Python str.startswith. -/
def pyStartsWith (s pre : String) : Bool :=
  charsStartWith pre.toList s.toList

/-- The admissible values of the --framework argument (main.py, lines
20-22). -/
def frameworkChoices : List String :=
  ["keras-tensorflow", "keras-theano", "torch"]

/-- The `__main__` dispatch of main.py (lines 25-47): argparse rejects a
framework outside `frameworkChoices`; otherwise the selected backend is
loaded and a network is constructed as described above.  `modelArg` is
the --model value ("" models an empty/absent value, replaced by the
default file). -/
def mainLoadNetwork (framework : String) (modelArg : String) :
    Except String (List MainEvent) :=
  if framework ∉ frameworkChoices then
    .error "argparse: invalid choice"
  else
    .ok
      (if pyStartsWith framework "keras" then
        (if framework = "keras-tensorflow" then
          [.setEnv "KERAS_BACKEND" "tensorflow"] else []) ++
        (if framework = "keras-theano" then
          [.setEnv "KERAS_BACKEND" "theano"] else []) ++
        (let modelFile :=
          if modelArg = "" then "models/example_keras_mnist_model.h5"
          else modelArg
         [.importModule "network.keras_tensorflow",
          .constructKerasTensorFlowNetwork modelFile])
      else if framework = "torch" then
        [.importModule "network.torch",
         .constructTorchNetwork "models/example_torch_mnist_net.py"
           "models/example_torch_mnist_model.pth" "Net" (28, 28)]
      else [])

/-!
## controller/activationscontroller.py

`on_layer_selected` forwards the layer to `model.setLayer`;
`on_unit_selected` calls `model.setUnit(unit)` only when the current
activation of the model is not None and the unit argument is not None.
The calls issued to the model are recorded.
-/

/-- A layer argument: an index or a name (activationscontroller.py,
lines 58-66). -/
inductive Layerlike
| index (n : ℤ)
| name (s : String)
deriving DecidableEq, Repr

/-- A call the controller issues to the model. -/
inductive ModelCall
| setLayer (layer : Layerlike)
| setUnit (unit : ℕ)
deriving DecidableEq, Repr

/-- `ActivationsController.on_layer_selected` (activationscontroller.py,
lines 58-66): call `setLayer` with exactly the given layer. -/
def onLayerSelectedCalls (layer : Layerlike) : List ModelCall :=
  [.setLayer layer]

/-- `ActivationsController.on_unit_selected` (activationscontroller.py,
lines 19-31): when the current activation of the model is None the local
`unit` is set to None and no model call happens; otherwise `setUnit` is
called exactly when the unit argument is not None. -/
def onUnitSelectedCalls (currentActivation : Option ℕ)
    (unit : Option ℕ) : List ModelCall :=
  match currentActivation with
  | none => []
  | some _ =>
      match unit with
      | some u => [.setUnit u]
      | none => []

/-!
## dltb/base/image.py: Image.__new__ / Image.__init__ / Image.as_data

Object identity is tracked by explicit identifiers: `imageObj i` is an
existing `Image` instance, `dataObj i` a `Data` instance that is not an
`Image` (both are `Data` instances, as `Image` subclasses `Data`).
-/

/-- An `Imagelike` value handed to `Image` or `Image.as_data`. -/
inductive PyImagelike
| imageObj (id : ℕ)
| dataObj (id : ℕ)
| array (id : ℕ)
| pathStr (s : String)
deriving DecidableEq, Repr

/-- Python `isinstance(x, Data)` for the modelled values. -/
def isDataInstance : PyImagelike → Bool
| .imageObj _ => true
| .dataObj _ => true
| _ => false

/-- Outcome of `Image.__new__` (dltb/base/image.py, lines 289-293):
either the given `Image` instance is returned unchanged, or
`super().__new__` allocates a fresh instance. -/
inductive NewOutcome
| reused (id : ℕ)
| allocatedFresh
deriving DecidableEq, Repr

/-- `Image.__new__` (dltb/base/image.py, lines 289-293). -/
def imageNew (image : PyImagelike) (copy : Bool) : NewOutcome :=
  match image with
  | .imageObj i => if !copy then .reused i else .allocatedFresh
  | _ => .allocatedFresh

/-- `Image.__init__` (dltb/base/image.py, lines 295-313) acting on the
attribute state of the instance: when the argument is an `Image` and
copy is False the method returns immediately, leaving the state alone;
otherwise the body runs, modelled by the abstract `initialized`
transformation of the state. -/
def imageInit {σ : Type} (image : PyImagelike) (copy : Bool)
    (state : σ) (initialized : σ → σ) : σ :=
  match image with
  | .imageObj _ => if !copy then state else initialized state
  | _ => initialized state

/-- Outcome of `Image.as_data`: the given object itself, or a freshly
constructed `Image`. -/
inductive AsDataOutcome
| same (obj : PyImagelike)
| newImageObj
deriving DecidableEq, Repr

/-- `Image.as_data` (dltb/base/image.py, lines 269-279): a `Data`
instance is returned itself when copy is False; otherwise a new `Image`
is constructed. -/
def imageAsData (image : PyImagelike) (copy : Bool) : AsDataOutcome :=
  if isDataInstance image && !copy then .same image else .newImageObj

/-!
## network/resize.py: ResizePolicyPad.resize

The method returns the image unchanged when no target shape is set or
the target shape equals the image shape, raises ValueError when the
target is smaller in height or width, and otherwise computes the four
padding amounts.  In that last branch the code then prints the two
shapes and invokes the ipdb interactive debugger via
`__import__('ipdb').set_trace()` before its `np.pad` call, which
moreover passes the malformed pad_width `(top, bottom, left, right)`
(numpy rejects a flat 4-tuple for a 2-D array); no padded image is ever
returned.  Reaching that point is modelled as `debugTrap` carrying the
computed padding split.
-/

/-- Outcome of `ResizePolicyPad.resize` (network/resize.py, lines
83-106). -/
inductive PadResizeOutcome
| unchanged
| valueErrorSmaller
| debugTrap (top bottom left right : ℕ)
deriving DecidableEq, Repr

/-- `ResizePolicyPad.resize` (network/resize.py, lines 83-106), over the
target shape `_new_shape` (None when never set) and the image shape. -/
def padResize (newShape : Option (List ℕ)) (imgShape : List ℕ) :
    PadResizeOutcome :=
  match newShape with
  | none => .unchanged
  | some ns =>
      if ns = imgShape then .unchanged
      else
        let h := imgShape.getD 0 0
        let w := imgShape.getD 1 0
        let newH := ns.getD 0 0
        let newW := ns.getD 1 0
        if newH < h || newW < w then .valueErrorSmaller
        else
          let padH := newH - h
          let padW := newW - w
          let top := padH / 2
          let left := padW / 2
          .debugTrap top (padH - top) left (padW - left)

/-!
## Theorems
-/

theorem flatMapCongrMem {α β : Type} {l : List α} {f g : α → List β}
    (h : ∀ a ∈ l, f a = g a) : l.flatMap f = l.flatMap g := by
  induction l with
  | nil => rfl
  | cons x xs ih =>
      rw [List.flatMap_cons, List.flatMap_cons, h x (by simp),
        ih (fun a ha => h a (by simp [ha]))]

theorem ancestorsFuelStable (bases : ℕ → List ℕ)
    (hb : ∀ i, ∀ b ∈ bases i, b < i) :
    ∀ i f, i ≤ f → ancestorsFuel bases f i = pyMro bases i := by
  intro i
  induction i using Nat.strong_induction_on with
  | _ i ih =>
    intro f hf
    match i, f with
    | 0, f =>
        have hb0 : bases 0 = [] := by
          cases hbase : bases 0 with
          | nil => rfl
          | cons b bs =>
              exact absurd (hb 0 b (by simp [hbase])) (Nat.not_lt_zero b)
        cases f with
        | zero => rfl
        | succ f => simp [ancestorsFuel, pyMro, hb0]
    | (k+1), f =>
        cases f with
        | zero => omega
        | succ f =>
            show ancestorsFuel bases (f+1) (k+1) =
              ancestorsFuel bases (k+1) (k+1)
            simp only [ancestorsFuel]
            congr 1
            apply flatMapCongrMem
            intro b hbmem
            have hblt : b < k + 1 := hb _ b hbmem
            rw [ih b hblt f (by omega), ih b hblt k (by omega)]

theorem memPyMroCases (bases : ℕ → List ℕ)
    (hb : ∀ i, ∀ b ∈ bases i, b < i) (c x : ℕ) (hx : x ∈ pyMro bases c) :
    x = c ∨ ∃ b ∈ bases c, x ∈ pyMro bases b := by
  cases c with
  | zero =>
      left
      have h0 : pyMro bases 0 = [0] := rfl
      rw [h0] at hx
      simpa using hx
  | succ k =>
      have hstep : pyMro bases (k+1) =
          (k+1) :: (bases (k+1)).flatMap (ancestorsFuel bases k) := rfl
      rw [hstep] at hx
      rcases List.mem_cons.mp hx with h | h
      · exact Or.inl h
      · right
        rcases List.mem_flatMap.mp h with ⟨b, hbmem, hxb⟩
        have hblt : b < k + 1 := hb _ b hbmem
        refine ⟨b, hbmem, ?_⟩
        rw [← ancestorsFuelStable bases hb b k (by omega)]
        exact hxb

theorem rewriteBasesLoopInserts (bases : ℕ → List ℕ) (base repl : ℕ) :
    ∀ l : List ℕ,
      (∃ b ∈ l, b = base ∨ pyIsSubclass bases b base = true) →
      repl ∈ rewriteBasesLoop bases base repl l false := by
  intro l
  induction l with
  | nil => rintro ⟨b, hbmem, _⟩; cases hbmem
  | cons c cs ih =>
      rintro ⟨b, hbmem, hbprop⟩
      by_cases hcb : c = base
      · simp [rewriteBasesLoop, hcb]
      · by_cases hcs : pyIsSubclass bases c base = true
        · simp [rewriteBasesLoop, hcb, hcs]
        · have hbcs : b ∈ cs := by
            rcases List.mem_cons.mp hbmem with h | h
            · subst h
              rcases hbprop with h1 | h1
              · exact absurd h1 hcb
              · exact absurd h1 hcs
            · exact h
          have hstep : rewriteBasesLoop bases base repl (c :: cs) false =
              c :: rewriteBasesLoop bases base repl cs false := by
            simp [rewriteBasesLoop, hcb, hcs]
          rw [hstep]
          exact List.mem_cons_of_mem c (ih ⟨b, hbcs, hbprop⟩)

/-- Claim C1: declaring a class as an ImageExtension with base `B`
registers the mapping `B ↦ E` in `ImageAdapter._image_extensions`, and
every newly created subclass `cls` of ImageAdapter whose mro contains
`B` (with `cls` itself not being `B`) but not the registered extension
`E` has its list of direct bases rewritten so that `E` appears among
them. -/
theorem image_extension_registers_and_rewrites_bases
    (exts : List (ℕ × ℕ)) (bases : ℕ → List ℕ)
    (hb : ∀ i, ∀ b ∈ bases i, b < i) (B E cls : ℕ) (hne : B ≠ cls)
    (hmem : B ∈ pyMro bases cls) (hnot : E ∉ pyMro bases cls) :
    lookupExtension (registerImageExtension exts B E) B = some E ∧
    E ∈ adapterInitSubclassStep bases B E cls := by
  constructor
  · simp [lookupExtension, registerImageExtension]
  · unfold adapterInitSubclassStep
    rw [if_pos ⟨hmem, hnot⟩]
    rcases memPyMroCases bases hb cls B hmem with h | ⟨b, hbmem, hBb⟩
    · exact absurd h.symm (fun h2 => hne h2.symm)
    · refine rewriteBasesLoopInserts bases B E (bases cls) ⟨b, hbmem, Or.inr ?_⟩
      simpa [pyIsSubclass] using hBb

theorem imageExtensionWitnessBasesWf :
    ∀ i, ∀ b ∈ (fun i => if i = 2 then [0] else []) i, b < i := by
  intro i b hbmem
  by_cases hi : i = 2
  · subst hi
    simp at hbmem
    omega
  · simp [hi] at hbmem

/-- Claim C1 witness: in a concrete class table where class 2 directly
derives from class 0, registering the extension 1 for base 0 makes the
lookup succeed and the base rewriting of class 2 insert class 1. -/
theorem image_extension_registers_and_rewrites_bases_witness :
    lookupExtension (registerImageExtension [] 0 1) 0 = some 1 ∧
    1 ∈ adapterInitSubclassStep (fun i => if i = 2 then [0] else []) 0 1 2 :=
  image_extension_registers_and_rewrites_bases []
    (fun i => if i = 2 then [0] else []) imageExtensionWitnessBasesWf
    0 1 2 (by decide) (by decide) (by decide)

/-- Claim C3: the base implementations executed when a subclass does not
override ImageReader.read, ImageWriter.write or ImageOperator.__call__
raise NotImplementedError and leave the receiver unchanged. -/
theorem abstract_stub_methods_raise_not_implemented (α β : Type)
    (self : α) (className filename : String) (image : β) :
    ((imageReaderRead className self filename).receiver = self ∧
      isNotImplementedError (imageReaderRead className self filename).raised
        = true) ∧
    ((imageWriterWrite className self filename image).receiver = self ∧
      isNotImplementedError
        (imageWriterWrite className self filename image).raised = true) ∧
    ((imageOperatorCall className self image).receiver = self ∧
      isNotImplementedError (imageOperatorCall className self image).raised
        = true) :=
  ⟨⟨rfl, rfl⟩, ⟨rfl, rfl⟩, ⟨rfl, rfl⟩⟩

/-- Claim C4: ImageResizer.resize and ImageResizer.scale are defined
mutually by delegation: when only `scale` is overridden, `resize`
computes the scale factors (size[0]/h, size[1]/w) from the first two
shape dimensions and delegates to `scale`; when only `resize` is
overridden, `scale` (with a pair of factors, a single float being
duplicated to both axes) delegates to `resize` with the size
Size(int(h*f0), int(w*f1)); when neither is overridden both raise
NotImplementedError. -/
theorem image_resizer_mutual_delegation :
    (∀ (h w : ℕ) (rest : List ℕ) (sw sh : ℤ), 0 < h → 0 < w →
        resizeBody true (h :: w :: rest) (sw, sh) =
          .callScale ((sw : ℚ) / (h : ℚ)) ((sh : ℚ) / (w : ℚ))) ∧
    (∀ (h w : ℕ) (rest : List ℕ) (f : ℚ × ℚ),
        scaleBody true (h :: w :: rest) (.inr f) =
          .callResize ⟨pyInt ((h : ℚ) * f.1), pyInt ((w : ℚ) * f.2)⟩) ∧
    (∀ (q : ℚ) (shape : List ℕ),
        scaleBody true shape (.inl q) = scaleBody true shape (.inr (q, q))) ∧
    (∀ (shape : List ℕ) (size : ℤ × ℤ),
        resizeBody false shape size = .raiseNotImplemented) ∧
    (∀ (shape : List ℕ) (factor : ℚ ⊕ (ℚ × ℚ)),
        scaleBody false shape factor = .raiseNotImplemented) :=
  ⟨fun _ _ _ _ _ _ _ => rfl, fun _ _ _ _ => rfl, fun _ _ => rfl,
   fun _ _ => rfl, fun _ _ => rfl⟩

/-- Claim C4 witness: a 4x6 image resized to (2, 3) by a subclass
overriding only `scale` delegates with factors (2/4, 3/6). -/
theorem image_resizer_mutual_delegation_witness :
    resizeBody true [4, 6] (2, 3) =
      .callScale (((2 : ℤ) : ℚ) / ((4 : ℕ) : ℚ))
        (((3 : ℤ) : ℚ) / ((6 : ℕ) : ℚ)) :=
  image_resizer_mutual_delegation.1 4 6 [] 2 3 (by decide) (by decide)

/-- Claim C6 counterexample: the code creates and coordinates threads
other than the event-loop thread: `present` creates (and starts) a
presentation thread, and `run` creates and joins a worker thread
running tool.loop. -/
theorem display_creates_threads_beyond_event_loop :
    ThreadOp.create ThreadId.presentation ∈ presentThreadOps ∧
    ThreadId.presentation ≠ ThreadId.eventLoop ∧
    ThreadOp.create ThreadId.worker ∈ runToolThreadOps ∧
    ThreadOp.join ThreadId.worker ∈ runToolThreadOps ∧
    ThreadId.worker ≠ ThreadId.eventLoop := by decide

/-- Claim C6 amended: the threads created and coordinated by the
operations of ImageDisplay are exactly the event-loop thread (created
and started by _run_nonblocking_event_loop), the presentation thread
(created and started by present), and the worker thread (created,
started and joined by run); close joins only the presentation and
event-loop threads. -/
theorem display_thread_coordination_catalog :
    presentThreadOps =
      [ThreadOp.create .presentation, ThreadOp.start .presentation] ∧
    nonblockingEventLoopThreadOps =
      [ThreadOp.create .eventLoop, ThreadOp.start .eventLoop] ∧
    runToolThreadOps =
      [ThreadOp.create .worker, ThreadOp.start .worker,
       ThreadOp.join .worker] ∧
    (∀ (pa pct et ect : Bool) (op : ThreadOp),
        op ∈ closeThreadOps pa pct et ect →
        op = ThreadOp.join .presentation ∨ op = ThreadOp.join .eventLoop) := by
  refine ⟨rfl, rfl, rfl, ?_⟩
  intro pa pct et ect op hop
  cases pa <;> cases pct <;> cases et <;> cases ect <;>
    simp [closeThreadOps] at hop <;> tauto

/-- Claim C6 amended witness: close on a display with an active
presentation (from another thread) joins one of the two known
threads. -/
theorem display_thread_coordination_catalog_witness :
    ThreadOp.join ThreadId.presentation = ThreadOp.join ThreadId.presentation ∨
    ThreadOp.join ThreadId.presentation = ThreadOp.join ThreadId.eventLoop :=
  display_thread_coordination_catalog.2.2.2 true false true false
    (ThreadOp.join .presentation) (by decide)

/-- Claim C7: on_layer_selected forwards exactly the given layer to
model.setLayer, and on_unit_selected calls model.setUnit(unit) exactly
when the current activation is not None and the unit is not None,
issuing no model call otherwise. -/
theorem activations_controller_forwards_selection :
    (∀ layer : Layerlike,
        onLayerSelectedCalls layer = [ModelCall.setLayer layer]) ∧
    (∀ (act u : ℕ),
        onUnitSelectedCalls (some act) (some u) = [ModelCall.setUnit u]) ∧
    (∀ unit : Option ℕ, onUnitSelectedCalls none unit = []) ∧
    (∀ act : ℕ, onUnitSelectedCalls (some act) none = []) :=
  ⟨fun _ => rfl, fun _ _ => rfl, fun _ => rfl, fun _ => rfl⟩

/-- Claim C9: constructing an Image from an existing Image with
copy=False reuses the very instance (no allocation, no modification of
the attribute state), and Image.as_data applied to a Data instance with
copy=False returns the given object itself. -/
theorem image_construction_reuses_instance_on_copy_false (σ : Type)
    (state : σ) (initialized : σ → σ) :
    (∀ i : ℕ, imageNew (.imageObj i) false = .reused i) ∧
    (∀ i : ℕ, imageInit (.imageObj i) false state initialized = state) ∧
    (∀ i : ℕ, imageAsData (.imageObj i) false = .same (.imageObj i)) ∧
    (∀ i : ℕ, imageAsData (.dataObj i) false = .same (.dataObj i)) :=
  ⟨fun _ => rfl, fun _ => rfl, fun _ => rfl, fun _ => rfl⟩

/-- Claim C10 (evaluation of the code): ResizePolicyPad.resize returns
the image unchanged when no target shape is set or the target equals
the image shape, and raises ValueError when the target is smaller; but
on an image that actually needs padding (shape (2,2), target (4,4)) the
code reaches the leftover ipdb debug trap with the computed split
top=1, bottom=1, left=1, right=1 instead of returning a padded image
(its subsequent np.pad call passes a malformed flat pad_width). -/
theorem pad_resize_code_evaluation :
    padResize none [2, 2] = .unchanged ∧
    padResize (some [2, 2]) [2, 2] = .unchanged ∧
    padResize (some [1, 4]) [2, 2] = .valueErrorSmaller ∧
    padResize (some [4, 4]) [2, 2] = .debugTrap 1 1 1 1 ∧
    padResize (some [4, 5]) [2, 2] = .debugTrap 1 1 1 2 := by decide

/-- Claim C8: the Size constructor normalizes every Sizelike value and
is idempotent: an existing Size is returned itself; an int or float n
yields width = height = int(n); a string with a `,` or `x` separator
whose two parts parse as integers yields those two integers; and
Size.__eq__ converts the other operand with Size first, so Size(a) == a
holds for every Sizelike a accepted by the constructor. -/
theorem size_constructor_normalizes_sizelike :
    (∀ s : Size, sizeNew (.size s) = some s) ∧
    (∀ n : ℤ, sizeNew (.int n) = some ⟨n, n⟩) ∧
    (∀ q : ℚ, sizeNew (.float q) = some ⟨pyInt q, pyInt q⟩) ∧
    (∀ (s : String) (sep : Char) (a b : List Char) (i j : ℤ),
        s.toList.find? (fun c => c == ',' || c == 'x') = some sep →
        splitOnChar sep s.toList = [a, b] →
        pyIntOfChars a = some i → pyIntOfChars b = some j →
        sizeNew (.str s) = some ⟨i, j⟩) ∧
    (∀ (a : Sizelike) (s : Size), sizeNew a = some s →
        sizeEq s a = some true) := by
  refine ⟨fun _ => rfl, fun _ => rfl, fun _ => rfl, ?_, ?_⟩
  · intro s sep a b i j h1 h2 h3 h4
    simp only [sizeNew, h1, h2, parseIntList, h3, h4]
  · intro a s h
    have hd : decide (s = s) = true := decide_eq_true rfl
    simp [sizeEq, h, hd]

/-- Claim C8 witness: the string with separator x parses into the two
integers, and equality to the original Sizelike value holds. -/
theorem size_constructor_normalizes_sizelike_witness :
    sizeNew (.str "3x4") = some ⟨3, 4⟩ ∧
    sizeEq ⟨3, 4⟩ (.str "3x4") = some true :=
  ⟨size_constructor_normalizes_sizelike.2.2.2.1 "3x4" 'x' ['3'] ['4'] 3 4
      (by decide) (by decide) (by decide) (by decide),
   size_constructor_normalizes_sizelike.2.2.2.2 (.str "3x4") ⟨3, 4⟩
      (size_constructor_normalizes_sizelike.2.2.2.1 "3x4" 'x' ['3'] ['4'] 3 4
        (by decide) (by decide) (by decide) (by decide))⟩

/-- Claim C5: main.py loads the deep-learning framework selected by
--framework: keras-tensorflow sets KERAS_BACKEND to tensorflow (and
keras-theano to theano) before importing the keras network module, then
constructs a KerasTensorFlowNetwork from the --model file; torch
constructs a TorchNetwork from the hard-coded files; every other
framework value is rejected by argparse and constructs no network. -/
theorem main_framework_plugin_selection :
    (∀ m : String, m ≠ "" →
        mainLoadNetwork "keras-tensorflow" m =
          .ok [.setEnv "KERAS_BACKEND" "tensorflow",
               .importModule "network.keras_tensorflow",
               .constructKerasTensorFlowNetwork m]) ∧
    (∀ m : String, m ≠ "" →
        mainLoadNetwork "keras-theano" m =
          .ok [.setEnv "KERAS_BACKEND" "theano",
               .importModule "network.keras_tensorflow",
               .constructKerasTensorFlowNetwork m]) ∧
    (∀ m : String,
        mainLoadNetwork "torch" m =
          .ok [.importModule "network.torch",
               .constructTorchNetwork "models/example_torch_mnist_net.py"
                 "models/example_torch_mnist_model.pth" "Net" (28, 28)]) ∧
    (∀ (fw m : String), fw ∉ frameworkChoices →
        mainLoadNetwork fw m = .error "argparse: invalid choice") := by
  refine ⟨?_, ?_, fun m => rfl, ?_⟩
  · intro m hm
    have hrfl : mainLoadNetwork "keras-tensorflow" m =
        .ok [.setEnv "KERAS_BACKEND" "tensorflow",
             .importModule "network.keras_tensorflow",
             .constructKerasTensorFlowNetwork
               (if m = "" then "models/example_keras_mnist_model.h5"
                else m)] := rfl
    rw [hrfl, if_neg hm]
  · intro m hm
    have hrfl : mainLoadNetwork "keras-theano" m =
        .ok [.setEnv "KERAS_BACKEND" "theano",
             .importModule "network.keras_tensorflow",
             .constructKerasTensorFlowNetwork
               (if m = "" then "models/example_keras_mnist_model.h5"
                else m)] := rfl
    rw [hrfl, if_neg hm]
  · intro fw m h
    unfold mainLoadNetwork
    rw [if_pos h]

/-- Claim C5 witness: loading keras-tensorflow with a concrete model
file performs exactly the environment update, the import and the
network construction, in that order. -/
theorem main_framework_plugin_selection_witness :
    mainLoadNetwork "keras-tensorflow" "m.h5" =
      .ok [.setEnv "KERAS_BACKEND" "tensorflow",
           .importModule "network.keras_tensorflow",
           .constructKerasTensorFlowNetwork "m.h5"] :=
  main_framework_plugin_selection.1 "m.h5" (by decide)

/-- Claim C2: ImageDisplay.show manages the event loop according to the
effective blocking value (None while a presentation runs, else the
argument if given, else the blocking property): with effective blocking
True and no event loop running it runs the blocking event loop in the
calling thread; with effective blocking False and no event loop running
it starts the non-blocking event loop in a background thread; with
effective blocking None it only processes pending events once and
starts no event loop.  (Stated for calls not made by a presentation on
a closed display, where show raises RuntimeError instead.) -/
theorem display_show_manages_event_loop (s : DisplayState) (image : ℕ)
    (blockingArg closeArg : Option Bool) (timeout : Option ℚ)
    (hpct : s.presentationIsCurrentThread = false) :
    (effectiveBlocking s blockingArg = some true →
      s.eventLoopRunning = false →
      ∃ acts, displayShow s image blockingArg closeArg timeout = .ok acts ∧
        acts.filter isEventLoopAction =
          [.runBlockingLoopInCallingThread timeout]) ∧
    (effectiveBlocking s blockingArg = some false →
      s.eventLoopRunning = false →
      ∃ acts, displayShow s image blockingArg closeArg timeout = .ok acts ∧
        acts.filter isEventLoopAction =
          [.startNonblockingLoopBackgroundThread]) ∧
    (effectiveBlocking s blockingArg = none →
      ∃ acts, displayShow s image blockingArg closeArg timeout = .ok acts ∧
        acts.filter isEventLoopAction = [.processEventsOnce]) := by
  obtain ⟨op, bl, pa, pct, el, en⟩ := s
  replace hpct : pct = false := hpct
  subst hpct
  have hsplit : ∀ x : Option Bool, x = none ∨ x = some true ∨ x = some false := by
    intro x
    rcases x with _ | b
    · exact Or.inl rfl
    · cases b
      · exact Or.inr (Or.inr rfl)
      · exact Or.inr (Or.inl rfl)
  refine ⟨?_, ?_, ?_⟩
  · intro heff hel
    replace hel : el = false := hel
    subst hel
    rcases hsplit bl with rfl | rfl | rfl <;>
      rcases hsplit blockingArg with rfl | rfl | rfl <;>
      rcases hsplit closeArg with rfl | rfl | rfl <;>
      cases pa <;> cases op <;>
      first
      | exact ⟨_, rfl, rfl⟩
      | simp [effectiveBlocking] at heff
  · intro heff hel
    replace hel : el = false := hel
    subst hel
    rcases hsplit bl with rfl | rfl | rfl <;>
      rcases hsplit blockingArg with rfl | rfl | rfl <;>
      rcases hsplit closeArg with rfl | rfl | rfl <;>
      cases pa <;> cases op <;>
      first
      | exact ⟨_, rfl, rfl⟩
      | simp [effectiveBlocking] at heff
  · intro heff
    rcases hsplit bl with rfl | rfl | rfl <;>
      rcases hsplit blockingArg with rfl | rfl | rfl <;>
      rcases hsplit closeArg with rfl | rfl | rfl <;>
      cases pa <;> cases op <;> cases el <;>
      first
      | exact ⟨_, rfl, rfl⟩
      | simp [effectiveBlocking] at heff

/-- Claim C2 witness: a blocking display that is open, with no
presentation and no event loop running, runs the blocking event loop in
the calling thread when showing an image. -/
theorem display_show_manages_event_loop_witness :
    ∃ acts, displayShow ⟨true, some true, false, false, false, 0⟩ 7
        none none none = .ok acts ∧
      acts.filter isEventLoopAction =
        [.runBlockingLoopInCallingThread none] :=
  (display_show_manages_event_loop ⟨true, some true, false, false, false, 0⟩
    7 none none none rfl).1 (by decide) rfl
